import Mathlib

/-!
Shallow embedding of `src/OV/System.cpp` (XCSoar OpenVario shim):
brightness read/write through a sysfs file, and SSH service control
through `/bin/systemctl` invocations.

The file state is the content of `/sys/class/backlight/lcd/brightness`
(`none` = absent or unreadable).  External commands are modelled by an
environment assigning each argv its exit status (0 = success).
-/

/-- State of the single sysfs file the component touches:
`none` means absent or unreadable, `some s` means readable with content `s`. -/
structure SysState where
  brightnessFile : Option String
deriving DecidableEq

/-- Modelled from the spec: `File::ReadString` (system/FileUtil.hpp, whose code
is not in the excerpt) reads up to `size - 1` characters plus a terminator into
the buffer and succeeds iff the file could be opened and read. -/
def ReadString (st : SysState) (size : Nat) : Option (List Char) :=
  st.brightnessFile.map (fun s => s.data.take (size - 1))

/-- Modelled from the spec: `File::WriteExisting` (system/FileUtil.hpp, whose
code is not in the excerpt) overwrites the file's content when the file
already exists and is a silent no-op when it is absent. -/
def WriteExisting (st : SysState) (s : String) : SysState :=
  if st.brightnessFile.isSome then ⟨some s⟩ else st

/-- The whitespace characters `isspace` accepts in the C locale. -/
def isCSpace (c : Char) : Bool :=
  c == ' ' || c == '\t' || c == '\n' || c == '\x0b' || c == '\x0c' || c == '\x0d'

/-- Digit-accumulation loop of C `atoi`: consume leading decimal digits,
stop at the first non-digit. -/
def atoiLoop : List Char → Int → Int
  | [], acc => acc
  | c :: cs, acc =>
    if c.isDigit then atoiLoop cs (10 * acc + (c.toNat - 48 : Nat)) else acc

/-- C standard `atoi` on a NUL-terminated buffer: skip leading whitespace,
accept one optional sign, convert the following decimal digits, and return 0
when no digits follow.  (Overflow is impossible here: the buffer holds at
most 3 characters.) -/
def atoi (cs : List Char) : Int :=
  match cs.dropWhile isCSpace with
  | [] => 0
  | c :: rest =>
    if c = '-' then - atoiLoop rest 0
    else if c = '+' then atoiLoop rest 0
    else atoiLoop (c :: rest) 0

/-- `OpenvarioGetBrightness` (System.cpp lines 12-23): `char line[4]`,
`int result = 10`, `result = atoi(line)` when `ReadString` succeeds, and the
`int` result is converted to the `uint_least8_t` return type (reduction
modulo 256). -/
def OpenvarioGetBrightness (st : SysState) : Nat :=
  let result : Int :=
    match ReadString st 4 with
    | some line => atoi line
    | none => 10
  (result % 256).toNat

/-- `OpenvarioSetBrightness` (System.cpp lines 25-32): the `uint_least8_t`
parameter (a value in `[0, 255]`) is clamped to `[1, 10]` and written in
decimal through `File::WriteExisting`. -/
def OpenvarioSetBrightness (value : Nat) (st : SysState) : SysState :=
  let v1 := if value < 1 then 1 else value
  let v2 := if v1 > 10 then 10 else v1
  WriteExisting st (Nat.repr v2)

/-- A call `OpenvarioSetBrightness(v)` with an `int` argument: C++ converts
the argument to the unsigned 8-bit parameter type by reduction modulo 256
before the function body runs. -/
def OpenvarioSetBrightnessInt (v : Int) (st : SysState) : SysState :=
  OpenvarioSetBrightness (v % 256).toNat st

/-- `SSHStatus` (System.hpp). -/
inductive SSHStatus where
  | ENABLED
  | TEMPORARY
  | DISABLED
deriving DecidableEq

/-- An external command line (executable plus arguments). -/
abbrev Argv := List String

def isEnabledArgv : Argv := ["/bin/systemctl", "--quiet", "is-enabled", "dropbear.socket"]

def isActiveArgv : Argv := ["/bin/systemctl", "--quiet", "is-active", "dropbear.socket"]

def disableArgv : Argv := ["/bin/systemctl", "disable", "dropbear.socket"]

def startArgv : Argv := ["/bin/systemctl", "start", "dropbear.socket"]

def enableNowArgv : Argv := ["/bin/systemctl", "enable", "--now", "dropbear.socket"]

def disableNowArgv : Argv := ["/bin/systemctl", "disable", "--now", "dropbear.socket"]

/-- Modelled from the spec: `Run` (system/Process.hpp, whose code is not in
the excerpt) spawns the command, waits for it, and returns success iff its
exit status is 0.  `env` assigns each argv the exit status its process
would produce. -/
def RunOK (env : Argv → Nat) (argv : Argv) : Bool :=
  env argv == 0

/-- `OpenvarioGetSSHStatus` (System.cpp lines 34-44). -/
def OpenvarioGetSSHStatus (env : Argv → Nat) : SSHStatus :=
  if RunOK env isEnabledArgv then .ENABLED
  else if RunOK env isActiveArgv then .TEMPORARY
  else .DISABLED

/-- `OpenvarioEnableSSH` (System.cpp lines 46-55).  Returns the boolean
result together with the trace of commands actually invoked, in order;
`Run(disable) && Run(start)` short-circuits, so when the disable command
fails the start command is never spawned. -/
def OpenvarioEnableSSH (env : Argv → Nat) (temporary : Bool) : Bool × List Argv :=
  if temporary then
    if RunOK env disableArgv then
      (RunOK env startArgv, [disableArgv, startArgv])
    else
      (false, [disableArgv])
  else
    (RunOK env enableNowArgv, [enableNowArgv])

/-- `OpenvarioDisableSSH` (System.cpp lines 57-61), with its invocation
trace. -/
def OpenvarioDisableSSH (env : Argv → Nat) : Bool × List Argv :=
  (RunOK env disableNowArgv, [disableNowArgv])

/-- An environment in which every external command fails with exit status 1. -/
def envAllFail : Argv → Nat := fun _ => 1

/-- An environment in which every external command succeeds (exit status 0). -/
def envAllOK : Argv → Nat := fun _ => 0

/-- The value of the leading base-10 digit characters of a buffer, following
the spec's wording "parses leading numeric characters as a base-10 integer";
used to compare the code's `atoi` path with the spec's description. -/
def leadingDigitsVal : List Char → Nat → Nat
  | [], acc => acc
  | c :: cs, acc =>
    if c.isDigit then leadingDigitsVal cs (10 * acc + (c.toNat - 48)) else acc

/-! Helper lemmas about `atoi`. -/

theorem atoiLoop_eq_of_no_digit (cs : List Char) (acc : Int)
    (h : ∀ c ∈ cs, c.isDigit = false) : atoiLoop cs acc = acc := by
  cases cs with
  | nil => rfl
  | cons c rest => simp [atoiLoop, h c (List.mem_cons_self c rest)]

theorem atoi_eq_zero_of_no_digit (cs : List Char)
    (h : ∀ c ∈ cs, c.isDigit = false) : atoi cs = 0 := by
  have hsub : ∀ c ∈ cs.dropWhile isCSpace, c.isDigit = false := fun c hc =>
    h c ((List.dropWhile_sublist (p := isCSpace) (l := cs)).subset hc)
  rcases hds : cs.dropWhile isCSpace with _ | ⟨c, rest⟩
  · simp [atoi, hds]
  · have hc : c.isDigit = false := hsub c (by rw [hds]; exact List.mem_cons_self c rest)
    have hr : ∀ x ∈ rest, x.isDigit = false := fun x hx =>
      hsub x (by rw [hds]; exact List.mem_cons_of_mem c hx)
    have hcr : ∀ x ∈ c :: rest, x.isDigit = false := by
      intro x hx
      rcases List.mem_cons.mp hx with h1 | h1
      · exact h1 ▸ hc
      · exact hr x h1
    unfold atoi
    rw [hds]
    by_cases h1 : c = '-'
    · simp [h1, atoiLoop_eq_of_no_digit rest 0 hr]
    · by_cases h2 : c = '+'
      · simp [h1, h2, atoiLoop_eq_of_no_digit rest 0 hr]
      · simp [h1, h2, atoiLoop_eq_of_no_digit (c :: rest) 0 hcr]

theorem atoiLoop_eq_leadingDigitsVal (cs : List Char) (a : Nat) :
    atoiLoop cs (a : Int) = (leadingDigitsVal cs a : Int) := by
  induction cs generalizing a with
  | nil => rfl
  | cons c rest ih =>
    by_cases hc : c.isDigit
    · have h1 : (10 * (a : Int) + ((c.toNat - 48 : Nat) : Int)) =
          ((10 * a + (c.toNat - 48) : Nat) : Int) := by
        push_cast
        ring
      simp only [atoiLoop, leadingDigitsVal, hc, if_true, h1, ih]
    · simp [atoiLoop, leadingDigitsVal, hc]

theorem isDigit_char_facts (c : Char) (h : c.isDigit = true) :
    isCSpace c = false ∧ ¬(c = '-') ∧ ¬(c = '+') := by
  refine ⟨?_, ?_, ?_⟩
  · cases hb : isCSpace c with
    | false => rfl
    | true =>
      exfalso
      simp only [isCSpace, Bool.or_eq_true, beq_iff_eq] at hb
      rcases hb with ((((h1 | h1) | h1) | h1) | h1) | h1 <;> subst h1 <;>
        exact absurd h (by decide)
  · intro hc
    subst hc
    exact absurd h (by decide)
  · intro hc
    subst hc
    exact absurd h (by decide)

/-- Evaluation of `OpenvarioSetBrightness` on an existing file: the written
text is the decimal rendering of the clamped value. -/
theorem setBrightness_eval (v : Nat) (st : SysState)
    (hex : st.brightnessFile.isSome = true) :
    OpenvarioSetBrightness v st =
      ⟨some (Nat.repr (if v < 1 then 1 else if v > 10 then 10 else v))⟩ := by
  unfold OpenvarioSetBrightness WriteExisting
  simp only [hex, if_true]
  congr 2
  by_cases h1 : v < 1
  · simp [h1]
  · by_cases h2 : v > 10 <;> simp [h1, h2]

/-! Claim theorems. -/

/-- C1, counterexample: a readable brightness file containing the
non-numeric text "abc" makes `OpenvarioGetBrightness` return 0 (the result
of `atoi` on text without leading digits, converted to `uint_least8_t`),
not the default 10 the claim states. -/
theorem getBrightness_nonnumeric_not_ten :
    (∀ c ∈ "abc".data, c.isDigit = false) ∧
      OpenvarioGetBrightness ⟨some "abc"⟩ ≠ 10 ∧
      OpenvarioGetBrightness ⟨some "abc"⟩ = 0 := by
  decide

/-- C1, amended: when the brightness file is absent or unreadable,
`OpenvarioGetBrightness` returns the default 10; when it is readable but its
content holds no digit at all, the `atoi` call yields 0 and the function
returns 0, not 10. -/
theorem getBrightness_absent_or_nonnumeric (st : SysState) :
    (st.brightnessFile = none → OpenvarioGetBrightness st = 10) ∧
    (∀ s : String, st.brightnessFile = some s → (∀ c ∈ s.data, c.isDigit = false) →
      OpenvarioGetBrightness st = 0) := by
  constructor
  · intro h
    simp [OpenvarioGetBrightness, ReadString, h]
  · intro s hs hd
    have hline : ∀ c ∈ s.data.take 3, c.isDigit = false := fun c hc =>
      hd c (List.take_subset 3 s.data hc)
    have hz := atoi_eq_zero_of_no_digit (s.data.take 3) hline
    simp [OpenvarioGetBrightness, ReadString, hs, hz]

/-- C1, witness: an absent file yields 10; a readable file with content
"abc" yields 0. -/
theorem getBrightness_absent_or_nonnumeric_witness :
    OpenvarioGetBrightness ⟨none⟩ = 10 ∧ OpenvarioGetBrightness ⟨some "abc"⟩ = 0 :=
  ⟨(getBrightness_absent_or_nonnumeric ⟨none⟩).1 rfl,
   (getBrightness_absent_or_nonnumeric ⟨some "abc"⟩).2 "abc" rfl (by decide)⟩

/-- C2, counterexample: in the environment where every command fails, the
disable command fails and the start command is nevertheless absent from the
trace of commands `OpenvarioEnableSSH(temporary := true)` invokes — `&&`
short-circuits, so the start step is skipped, contrary to the claim. -/
theorem enableSSH_all_fail_skips_start :
    envAllFail disableArgv ≠ 0 ∧
      startArgv ∉ (OpenvarioEnableSSH envAllFail true).2 := by
  decide

/-- C2, amended: in `OpenvarioEnableSSH(temporary := true)`, whenever the
disable command fails, the start command is NOT invoked (the C++ `&&`
short-circuits on failure of its first operand) and the overall result is
false. -/
theorem enableSSH_disable_fail_skips_start (env : Argv → Nat)
    (h : env disableArgv ≠ 0) :
    (OpenvarioEnableSSH env true).1 = false ∧
      startArgv ∉ (OpenvarioEnableSSH env true).2 := by
  have hro : RunOK env disableArgv = false := by simp [RunOK, h]
  have hbody : OpenvarioEnableSSH env true = (false, [disableArgv]) := by
    unfold OpenvarioEnableSSH
    rw [hro]
    rfl
  rw [hbody]
  exact ⟨rfl, by decide⟩

/-- C2, witness: the amended claim at the all-failing environment. -/
theorem enableSSH_disable_fail_skips_start_witness :
    (OpenvarioEnableSSH envAllFail true).1 = false ∧
      startArgv ∉ (OpenvarioEnableSSH envAllFail true).2 :=
  enableSSH_disable_fail_skips_start envAllFail (by decide)

/-- C3, counterexample: the parameter of `OpenvarioSetBrightness` is an
unsigned 8-bit integer, so a call with the `int` argument `-1` (an input
below 1) first converts it to 255 and then clamps to 10: it writes "10",
not "1" as the claim states for inputs below 1. -/
theorem setBrightnessInt_neg_input_writes_ten :
    (-1 : Int) < 1 ∧
      OpenvarioSetBrightnessInt (-1) ⟨some "5"⟩ ≠ ⟨some "1"⟩ ∧
      OpenvarioSetBrightnessInt (-1) ⟨some "5"⟩ = ⟨some "10"⟩ := by
  decide

/-- C3, amended: integer arguments are first reduced modulo 256 into the
unsigned 8-bit parameter; for every parameter value v in [0, 255] written to
an existing file, v below 1 (that is, v = 0) writes 1, v above 10 writes 10,
and 1 ≤ v ≤ 10 writes exactly v; no error is reported in any case. -/
theorem setBrightness_clamps_uint8 (v : Nat) (st : SysState) (hv : v < 256)
    (hex : st.brightnessFile.isSome = true) :
    (v < 1 → OpenvarioSetBrightness v st = ⟨some "1"⟩) ∧
    (10 < v → OpenvarioSetBrightness v st = ⟨some "10"⟩) ∧
    (1 ≤ v → v ≤ 10 → OpenvarioSetBrightness v st = ⟨some (Nat.repr v)⟩) := by
  refine ⟨fun h => ?_, fun h => ?_, fun h1 h2 => ?_⟩
  · have h0 : v = 0 := by omega
    subst h0
    rw [setBrightness_eval 0 st hex]
    decide
  · rw [setBrightness_eval v st hex]
    have hne : ¬(v < 1) := by omega
    simp [hne, h]
    decide
  · rw [setBrightness_eval v st hex]
    have hne : ¬(v < 1) := by omega
    have hne2 : ¬(v > 10) := by omega
    simp [hne, hne2]

/-- C3, witness: parameter 0 writes "1", parameter 255 writes "10",
parameter 5 writes "5". -/
theorem setBrightness_clamps_uint8_witness :
    OpenvarioSetBrightness 0 ⟨some "7"⟩ = ⟨some "1"⟩ ∧
    OpenvarioSetBrightness 255 ⟨some "7"⟩ = ⟨some "10"⟩ ∧
    OpenvarioSetBrightness 5 ⟨some "7"⟩ = ⟨some "5"⟩ :=
  ⟨(setBrightness_clamps_uint8 0 ⟨some "7"⟩ (by decide) (by decide)).1 (by decide),
   (setBrightness_clamps_uint8 255 ⟨some "7"⟩ (by decide) (by decide)).2.1 (by decide),
   (setBrightness_clamps_uint8 5 ⟨some "7"⟩ (by decide) (by decide)).2.2 (by decide) (by decide)⟩

/-- C4: `OpenvarioGetSSHStatus` returns ENABLED when the is-enabled check
exits 0 (whatever the is-active status), TEMPORARY when is-enabled fails but
is-active exits 0, and DISABLED when both fail. -/
theorem getSSHStatus_cases (env : Argv → Nat) :
    (env isEnabledArgv = 0 → OpenvarioGetSSHStatus env = .ENABLED) ∧
    (env isEnabledArgv ≠ 0 → env isActiveArgv = 0 →
      OpenvarioGetSSHStatus env = .TEMPORARY) ∧
    (env isEnabledArgv ≠ 0 → env isActiveArgv ≠ 0 →
      OpenvarioGetSSHStatus env = .DISABLED) := by
  refine ⟨fun h => ?_, fun h1 h2 => ?_, fun h1 h2 => ?_⟩ <;>
    simp [OpenvarioGetSSHStatus, RunOK, *]

/-- C4, witness: all commands succeeding yields ENABLED; all failing yields
DISABLED. -/
theorem getSSHStatus_cases_witness :
    OpenvarioGetSSHStatus envAllOK = .ENABLED ∧
      OpenvarioGetSSHStatus envAllFail = .DISABLED :=
  ⟨(getSSHStatus_cases envAllOK).1 rfl,
   (getSSHStatus_cases envAllFail).2.2 (by decide) (by decide)⟩

/-- C5: round trip — for every value v with 1 ≤ v ≤ 10 and a brightness
file that exists (is writable and readable), `OpenvarioGetBrightness` after
`OpenvarioSetBrightness v` returns exactly v. -/
theorem brightness_round_trip (st : SysState) (v : Nat) (h1 : 1 ≤ v)
    (h2 : v ≤ 10) (hw : st.brightnessFile.isSome = true) :
    OpenvarioGetBrightness (OpenvarioSetBrightness v st) = v := by
  have hset : OpenvarioSetBrightness v st = ⟨some (Nat.repr v)⟩ := by
    rw [setBrightness_eval v st hw]
    have hne : ¬(v < 1) := by omega
    have hne2 : ¬(v > 10) := by omega
    simp [hne, hne2]
  rw [hset]
  interval_cases v <;> decide

/-- C5, witness: after writing 5 to a readable and writable file, the read
returns 5. -/
theorem brightness_round_trip_witness :
    OpenvarioGetBrightness (OpenvarioSetBrightness 5 ⟨some "3"⟩) = 5 :=
  brightness_round_trip ⟨some "3"⟩ 5 (by decide) (by decide) (by decide)

/-- C6: `OpenvarioEnableSSH(temporary := true)` returns true exactly when
both the disable command and the start command exit 0. -/
theorem enableSSH_temporary_iff_both (env : Argv → Nat) :
    (OpenvarioEnableSSH env true).1 = true ↔
      (env disableArgv = 0 ∧ env startArgv = 0) := by
  unfold OpenvarioEnableSSH
  by_cases h : env disableArgv = 0 <;> simp [RunOK, h]

/-- C6, witness: when both commands succeed the call returns true. -/
theorem enableSSH_temporary_iff_both_witness :
    (OpenvarioEnableSSH envAllOK true).1 = true :=
  (enableSSH_temporary_iff_both envAllOK).mpr ⟨rfl, rfl⟩

/-- C7: `OpenvarioDisableSSH` invokes exactly the one combined
disable-and-stop command, and returns true iff that command exits 0. -/
theorem disableSSH_single_command (env : Argv → Nat) :
    (OpenvarioDisableSSH env).2 = [disableNowArgv] ∧
      ((OpenvarioDisableSSH env).1 = true ↔ env disableNowArgv = 0) := by
  exact ⟨rfl, by simp [OpenvarioDisableSSH, RunOK]⟩

/-- C7, witness: with a succeeding command the trace is the single combined
command and the result is true. -/
theorem disableSSH_single_command_witness :
    (OpenvarioDisableSSH envAllOK).2 = [disableNowArgv] ∧
      (OpenvarioDisableSSH envAllOK).1 = true :=
  ⟨(disableSSH_single_command envAllOK).1,
   (disableSSH_single_command envAllOK).2.mpr rfl⟩

/-- C9: `OpenvarioEnableSSH(temporary := false)` invokes exactly the one
combined enable-and-start command, and returns that command's success. -/
theorem enableSSH_permanent_single_command (env : Argv → Nat) :
    (OpenvarioEnableSSH env false).2 = [enableNowArgv] ∧
      ((OpenvarioEnableSSH env false).1 = true ↔ env enableNowArgv = 0) := by
  exact ⟨rfl, by simp [OpenvarioEnableSSH, RunOK]⟩

/-- C9, witness: with a succeeding command the trace is the single combined
command and the result is true. -/
theorem enableSSH_permanent_single_command_witness :
    (OpenvarioEnableSSH envAllOK false).2 = [enableNowArgv] ∧
      (OpenvarioEnableSSH envAllOK false).1 = true :=
  ⟨(enableSSH_permanent_single_command envAllOK).1,
   (enableSSH_permanent_single_command envAllOK).2.mpr rfl⟩

/-- C8, counterexample: the brightness file containing the numeric text
"300" makes `OpenvarioGetBrightness` return 44 (= 300 mod 256, from the
conversion of the parsed `int` to the unsigned 8-bit return type), not the
parsed integer 300 the claim states. -/
theorem getBrightness_file_300_yields_44 :
    OpenvarioGetBrightness ⟨some "300"⟩ ≠ 300 ∧
      OpenvarioGetBrightness ⟨some "300"⟩ = 44 := by
  decide

/-- C8, amended: when the brightness file is readable and its first
character is a decimal digit, `OpenvarioGetBrightness` returns the integer
parsed from the leading base-10 digits of the (at most three) characters
read, reduced modulo 256 by the unsigned 8-bit return type; in particular a
file containing "7" yields 7. -/
theorem getBrightness_leading_digits_mod (st : SysState) (s : String)
    (hs : st.brightnessFile = some s)
    (hd : ∃ c cs, s.data = c :: cs ∧ c.isDigit = true) :
    OpenvarioGetBrightness st = leadingDigitsVal (s.data.take 3) 0 % 256 := by
  obtain ⟨c, cs, hdata, hdigit⟩ := hd
  obtain ⟨hnspace, hnm, hnp⟩ := isDigit_char_facts c hdigit
  have htake : s.data.take 3 = c :: cs.take 2 := by rw [hdata]; rfl
  have hrs : ReadString st 4 = some (c :: cs.take 2) := by
    simp [ReadString, hs, htake]
  have hdw : (c :: cs.take 2).dropWhile isCSpace = c :: cs.take 2 :=
    List.dropWhile_cons_of_neg (by simp [hnspace])
  have hatoi : atoi (c :: cs.take 2) = (leadingDigitsVal (c :: cs.take 2) 0 : Int) := by
    have h0 : ((0 : Nat) : Int) = 0 := rfl
    unfold atoi
    rw [hdw]
    dsimp only
    rw [if_neg hnm, if_neg hnp, ← h0, atoiLoop_eq_leadingDigitsVal]
  unfold OpenvarioGetBrightness
  rw [hrs]
  dsimp only
  rw [hatoi, htake]
  omega

/-- C8, witness: a file containing "7" yields 7. -/
theorem getBrightness_leading_digits_mod_witness :
    OpenvarioGetBrightness ⟨some "7"⟩ = 7 :=
  (getBrightness_leading_digits_mod ⟨some "7"⟩ "7" rfl
    ⟨'7', [], by decide, by decide⟩).trans (by decide)

/-- C10: `OpenvarioGetBrightness` does not clamp what it reads — for a
readable file whose (at most three) characters parse under `atoi` to an
integer outside [1, 10], it returns that integer reduced modulo 256 into the
unsigned 8-bit return type. -/
theorem getBrightness_no_clamp_mod256 (s : String) (hlen : s.length ≤ 3)
    (hout : atoi s.data < 1 ∨ 10 < atoi s.data) :
    OpenvarioGetBrightness ⟨some s⟩ = ((atoi s.data) % 256).toNat := by
  have htake : s.data.take 3 = s.data := List.take_of_length_le hlen
  unfold OpenvarioGetBrightness ReadString
  simp [htake]

/-- C10, witness: a file containing "99" yields 99, "300" yields 44 and
"-9" yields 247 — none of them confined to the [1, 10] range. -/
theorem getBrightness_no_clamp_mod256_witness :
    OpenvarioGetBrightness ⟨some "99"⟩ = 99 ∧
      OpenvarioGetBrightness ⟨some "300"⟩ = 44 ∧
      OpenvarioGetBrightness ⟨some "-9"⟩ = 247 :=
  ⟨(getBrightness_no_clamp_mod256 "99" (by decide) (by decide)).trans (by decide),
   (getBrightness_no_clamp_mod256 "300" (by decide) (by decide)).trans (by decide),
   (getBrightness_no_clamp_mod256 "-9" (by decide) (by decide)).trans (by decide)⟩
